import Mathlib

/-!
# Verification of the AI-Cybersecurity honeypot analytics core

Shallow embedding of the database-side analytics logic of the honeypot
repository (`backend/database/init.sql`): the `calculate_risk_score`
function, the `severity_level` / `alert_status` enums, the
`attack_statistics` and `real_time_alerts` views, the `update_last_seen`
trigger and the `generate_request_id` helper.  SQL `FLOAT` values are
modelled by `ℚ`, SQL `INTEGER` by `ℤ`, and `JSONB` severity-weight objects
by an optional record of optional numeric fields (a missing key casts to
`NULL`, whose comparison with `0` is not true).

Components that the repository only declares storage for (the alert
engine's creation/deduplication logic, the event normalizer, alert status
transitions) are modelled from the specification and marked as such.
-/

namespace Honeypot

/-! ## Risk scoring (`calculate_risk_score`, init.sql lines 59–92) -/

/-- The `severity_weights JSONB` argument of `calculate_risk_score`:
the function reads the keys `high` and `critical`; a missing key yields
SQL `NULL`, modelled by `none`. -/
structure SeverityWeights where
  high : Option ℚ
  critical : Option ℚ
deriving DecidableEq

/-- `(w->>key)::FLOAT > 0` in SQL: false when the key is missing
(`NULL > 0` is not true). -/
def wPos : Option ℚ → Bool
  | none => false
  | some x => decide (0 < x)

/-- Severity multiplier accumulation of `calculate_risk_score`
(init.sql lines 80–88): starts at `1.0`; multiplied by `1.5` if the
`high` weight is positive, then multiplied by `2.0` if the `critical`
weight is positive; `1.0` when the whole JSONB argument is `NULL`. -/
def severityMultiplier : Option SeverityWeights → ℚ
  | none => 1
  | some w =>
    let m : ℚ := 1
    let m : ℚ := if wPos w.high then m * (3 / 2) else m
    let m : ℚ := if wPos w.critical then m * 2 else m
    m

/-- `calculate_risk_score` from init.sql lines 59–92:
base `LEAST(attack_count * 10, 50)`, plus `unique_endpoints * 2`,
times `1.2` when `session_duration > 3600`, times the severity
multiplier, finally `LEAST(·, 100.0)`. -/
def calculate_risk_score (attack_count unique_endpoints : ℤ)
    (session_duration : ℚ) (severity_weights : Option SeverityWeights) : ℚ :=
  let base0 : ℚ := min ((attack_count : ℚ) * 10) 50
  let base1 : ℚ := base0 + (unique_endpoints : ℚ) * 2
  let base2 : ℚ := if session_duration > 3600 then base1 * (6 / 5) else base1
  min (base2 * severityMultiplier severity_weights) 100

/-- Whether the weights report a positive `high` entry. -/
def hasHighFlag : Option SeverityWeights → Bool
  | none => false
  | some w => wPos w.high

/-- Whether the weights report a positive `critical` entry. -/
def hasCriticalFlag : Option SeverityWeights → Bool
  | none => false
  | some w => wPos w.critical

/-- The pre-severity running total, as the specification words it:
base `min(attackCount*10, 50)`, add `uniqueEndpoints*2`, multiply by
`1.2` exactly when the session duration exceeds one hour. -/
def riskScoreBase_spec (attack_count unique_endpoints : ℤ)
    (session_duration : ℚ) : ℚ :=
  if 3600 < session_duration then
    (min ((attack_count : ℚ) * 10) 50 + (unique_endpoints : ℚ) * 2) * (6 / 5)
  else
    min ((attack_count : ℚ) * 10) 50 + (unique_endpoints : ℚ) * 2

/-! ## Severity enum and the `MAX(severity)` aggregate
(init.sql lines 16–20 and 95–108) -/

/-- The `severity_level` enum (init.sql line 17).  PostgreSQL orders enum
values by declaration order: `low < medium < high < critical`. -/
inductive Severity
  | low
  | medium
  | high
  | critical
deriving DecidableEq, Fintype

/-- Position of a severity in the enum's declaration order, which is the
order PostgreSQL compares enum values by. -/
def sevOrd : Severity → ℕ
  | .low => 0
  | .medium => 1
  | .high => 2
  | .critical => 3

/-- Binary maximum of two severities under the enum order (the pairwise
step of the SQL `MAX` aggregate). -/
def sevMax (a b : Severity) : Severity :=
  if sevOrd a ≤ sevOrd b then b else a

/-- The `MAX(severity)` aggregate of the `attack_statistics` view
(init.sql line 103) over a group of events, folded pairwise; `low` is the
identity of `sevMax`, so on a non-empty group this is the maximum of the
group's severities. -/
def maxSeverity (l : List Severity) : Severity :=
  l.foldr sevMax .low

/-! ## Alert status and its transition discipline
(enum: init.sql lines 32–36; transitions: specification §3/§4.7) -/

/-- The `alert_status` enum (init.sql line 33).  The SQL value `open` is a
Lean keyword, rendered here as `open_`. -/
inductive AlertStatus
  | open_
  | investigating
  | resolved
  | false_positive
deriving DecidableEq, Fintype

/-- Modelled from the spec: the repository's SQL only declares the
`alert_status` enum; the transition discipline
`open → investigating → {resolved, false_positive}` with no reverse
transitions is given by the specification (§3, §4.7). -/
def allowedTransition : AlertStatus → AlertStatus → Bool
  | .open_, .investigating => true
  | .investigating, .resolved => true
  | .investigating, .false_positive => true
  | _, _ => false

/-- Progress rank of an alert status: both terminal statuses rank above
`investigating`, which ranks above `open`. -/
def statusRank : AlertStatus → ℕ
  | .open_ => 0
  | .investigating => 1
  | .resolved => 2
  | .false_positive => 2

/-- Run a sequence of requested transitions from a starting status,
failing (`none`) as soon as a requested transition is not allowed. -/
def runTransitions : AlertStatus → List AlertStatus → Option AlertStatus
  | s, [] => some s
  | s, t :: rest => if allowedTransition s t then runTransitions t rest else none

/-! ## Alert engine creation and deduplication (specification §4.7) -/

/-- Dedup key of an alert: source identity plus alert type. -/
structure AlertKey where
  source_ip : String
  alert_type : String
deriving DecidableEq

/-- An alert held by the engine: its dedup key, creation time (seconds),
and status. -/
structure EngineAlert where
  key : AlertKey
  created_at : ℚ
  status : AlertStatus
deriving DecidableEq

/-- A finalized event as seen by the alert engine: dedup key, arrival
time (seconds), severity, and the profile's risk score. -/
structure EngineEvent where
  key : AlertKey
  time : ℚ
  severity : Severity
  risk_score : ℚ
deriving DecidableEq

/-- Whether a status counts as active (`open` or `investigating`). -/
def isActiveStatus : AlertStatus → Bool
  | .open_ => true
  | .investigating => true
  | _ => false

/-- Modelled from the spec (§4.7): whether an active (`open` or
`investigating`) alert for the same key already exists within the dedup
window of `now`. -/
def hasActiveAlert (alerts : List EngineAlert) (k : AlertKey)
    (now window : ℚ) : Bool :=
  alerts.any fun a =>
    decide (a.key = k) && isActiveStatus a.status &&
      decide (now - a.created_at ≤ window)

/-- Modelled from the spec (§4.7): the `none → open` firing condition —
risk score at or above the threshold, or a single critical-severity
event. -/
def triggersAlert (threshold : ℚ) (e : EngineEvent) : Bool :=
  decide (threshold ≤ e.risk_score) || decide (e.severity = Severity.critical)

/-- Modelled from the spec (§4.7): the alert engine processes one event —
it creates a new `open` alert exactly when the firing condition holds and
no active alert for the same key exists within the dedup window;
otherwise the state is unchanged. -/
def processEvent (threshold window : ℚ) (st : List EngineAlert)
    (e : EngineEvent) : List EngineAlert :=
  if triggersAlert threshold e && ! hasActiveAlert st e.key e.time window then
    st ++ [⟨e.key, e.time, .open_⟩]
  else st

/-- Modelled from the spec (§4.7): the alert engine's state after a
sequence of events. -/
def runAlertEngine (threshold window : ℚ) (st : List EngineAlert)
    (events : List EngineEvent) : List EngineAlert :=
  events.foldl (processEvent threshold window) st

/-! ## Event normalizer (specification §4.1) and `generate_request_id`
(init.sql lines 51–56) -/

/-- The snapshot size cap of the normalizer (8 KB, spec §4.1). -/
def SNAPSHOT_CAP : ℕ := 8192

/-- A raw capture as delivered to the normalizer (spec §4.1): method,
path, header snapshot, body bytes, remote address, timestamp. -/
structure RawCapture where
  method : String
  path : String
  headers : List ℕ
  body : List ℕ
  remote_addr : String
  timestamp : ℚ

/-- Modelled from the spec (§4.1): a capture is valid when its required
fields (method, path, remote address) are present, i.e. non-empty. -/
def validCapture (c : RawCapture) : Bool :=
  !c.method.isEmpty && !c.path.isEmpty && !c.remote_addr.isEmpty

/-- `generate_request_id` from init.sql lines 51–56:
`'req_' || epoch_text || '_' || first 8 characters of a random hash`.
The epoch text and hash text are parameters standing for `now()` and
`md5(random())`. -/
def generate_request_id (epoch_text rand_hash : String) : String :=
  "req_" ++ epoch_text ++ "_" ++ rand_hash.take 8

/-- The canonical event produced by the normalizer: fresh identifier,
capped header/body snapshots, a lossy-truncation flag, and the capture's
own source identity and timestamp. -/
structure NormalizedEvent where
  event_id : String
  method : String
  path : String
  headers_snapshot : List ℕ
  body_snapshot : List ℕ
  truncated : Bool
  source_identity : String
  timestamp : ℚ

/-- The normalizer's rejection of a malformed capture. -/
inductive NormalizeError
  | validationError
deriving DecidableEq

/-- Modelled from the spec (§4.1): `Normalizer.normalize` validates the
required fields, rejecting a malformed capture with a `ValidationError`;
on a valid capture it truncates the header/body snapshots to the fixed
cap (recording truncation as a flag, not an error) and produces a
canonical event with a freshly generated identifier
(`generate_request_id`, whose nondeterministic inputs are passed as the
`epoch_text`/`rand_hash` parameters) and the capture timestamp. -/
def normalize (epoch_text rand_hash : String) (c : RawCapture) :
    Except NormalizeError NormalizedEvent :=
  if validCapture c then
    .ok { event_id := generate_request_id epoch_text rand_hash
          method := c.method
          path := c.path
          headers_snapshot := c.headers.take SNAPSHOT_CAP
          body_snapshot := c.body.take SNAPSHOT_CAP
          truncated := decide (SNAPSHOT_CAP < c.headers.length) ||
            decide (SNAPSHOT_CAP < c.body.length)
          source_identity := c.remote_addr
          timestamp := c.timestamp }
  else .error .validationError

/-! ## Attacker profile and the `update_last_seen` trigger
(init.sql lines 42–48) -/

/-- The slice of an attacker-profile row touched by the
`update_last_seen` trigger. -/
structure AttackerProfile where
  source_ip : String
  first_seen : ℚ
  last_seen : ℚ
  total_requests : ℕ
deriving DecidableEq

/-- The `update_last_seen` trigger (init.sql lines 42–48): on each update
it sets `NEW.last_seen = NOW()` and returns the row; `now` is the clock
reading at the update. -/
def update_last_seen (now : ℚ) (p : AttackerProfile) : AttackerProfile :=
  { p with last_seen := now }

/-- The successive values of `last_seen` along a sequence of trigger
firings at clock readings `times`, starting from profile `p` (the initial
value included). -/
def lastSeenTrajectory (p : AttackerProfile) (times : List ℚ) : List ℚ :=
  (List.scanl (fun q t => update_last_seen t q) p times).map
    AttackerProfile.last_seen

/-! ## The `real_time_alerts` view (init.sql lines 134–152) -/

/-- A row of the `security_alerts` table, restricted to the columns the
`real_time_alerts` view reads. -/
structure SecurityAlertRow where
  id : ℕ
  alert_id : String
  timestamp : ℚ
  alert_type : String
  severity : Severity
  title : String
  description : String
  source_ip : String
  affected_endpoint : String
  confidence : ℚ
  status : AlertStatus
  attack_event_ids : List ℕ

/-- A row of the `attack_events` table, restricted to the columns the
`real_time_alerts` view reads. -/
structure AttackEventRow where
  id : ℕ
  attack_type : String
  anomaly_score : ℚ

/-- A result row of the `real_time_alerts` view; the event columns are
`none` when the left join finds no matching attack event. -/
structure RealTimeAlertRow where
  id : ℕ
  alert_id : String
  timestamp : ℚ
  alert_type : String
  severity : Severity
  title : String
  description : String
  source_ip : String
  affected_endpoint : String
  confidence : ℚ
  status : AlertStatus
  attack_type : Option String
  anomaly_score : Option ℚ

/-- Build one view row from an alert and an optionally joined event. -/
def alertRow (sa : SecurityAlertRow) (ae : Option AttackEventRow) :
    RealTimeAlertRow :=
  { id := sa.id
    alert_id := sa.alert_id
    timestamp := sa.timestamp
    alert_type := sa.alert_type
    severity := sa.severity
    title := sa.title
    description := sa.description
    source_ip := sa.source_ip
    affected_endpoint := sa.affected_endpoint
    confidence := sa.confidence
    status := sa.status
    attack_type := ae.map AttackEventRow.attack_type
    anomaly_score := ae.map AttackEventRow.anomaly_score }

/-- The `LEFT JOIN attack_events ae ON ae.id = ANY(sa.attack_event_ids)`
of the view (init.sql line 150): all matching event rows, or a single row
with null event columns when none matches. -/
def leftJoinEvents (aes : List AttackEventRow) (sa : SecurityAlertRow) :
    List RealTimeAlertRow :=
  let matched := aes.filter fun ae => sa.attack_event_ids.contains ae.id
  if matched.isEmpty then [alertRow sa none]
  else matched.map fun ae => alertRow sa (some ae)

/-- The `real_time_alerts` view (init.sql lines 134–152): security alerts
whose status is `open` or `investigating` (the `WHERE sa.status IN
('open','investigating')` clause), left-joined with their contributing
attack events.  The `ORDER BY timestamp DESC` clause only permutes rows
and is omitted. -/
def real_time_alerts (sas : List SecurityAlertRow)
    (aes : List AttackEventRow) : List RealTimeAlertRow :=
  (sas.filter fun sa => isActiveStatus sa.status).flatMap (leftJoinEvents aes)

/-! ## Helper lemmas -/

/-- The multiplier accumulation factors into one factor per flag. -/
lemma severityMultiplier_factorization (w : Option SeverityWeights) :
    severityMultiplier w =
      (if hasHighFlag w then (3 / 2 : ℚ) else 1) *
        (if hasCriticalFlag w then (2 : ℚ) else 1) := by
  cases w with
  | none => simp [severityMultiplier, hasHighFlag, hasCriticalFlag]
  | some v =>
    simp only [severityMultiplier, hasHighFlag, hasCriticalFlag]
    split_ifs <;> norm_num

/-- The severity multiplier is at least `1`. -/
lemma one_le_severityMultiplier (w : Option SeverityWeights) :
    1 ≤ severityMultiplier w := by
  rw [severityMultiplier_factorization]
  split_ifs <;> norm_num

/-- The severity multiplier grows when severity flags are added. -/
lemma severityMultiplier_mono (w₁ w₂ : Option SeverityWeights)
    (hh : hasHighFlag w₁ = true → hasHighFlag w₂ = true)
    (hc : hasCriticalFlag w₁ = true → hasCriticalFlag w₂ = true) :
    severityMultiplier w₁ ≤ severityMultiplier w₂ := by
  rw [severityMultiplier_factorization, severityMultiplier_factorization]
  cases hH1 : hasHighFlag w₁ <;> cases hC1 : hasCriticalFlag w₁ <;>
    cases hH2 : hasHighFlag w₂ <;> cases hC2 : hasCriticalFlag w₂ <;>
    simp_all <;> norm_num

/-! ## Claims about the risk-score formula -/

/-- C1, counterexample: when both the `high` and the `critical` weights
are positive, `calculate_risk_score` applies the product multiplier
`1.5 × 2.0 = 3.0`, not the larger applicable multiplier `2.0` alone: with
one attack, no endpoints and no session, the score is `30`, not `20`. -/
theorem C1_counterexample :
    severityMultiplier (some ⟨some 1, some 1⟩) = 3 ∧
    severityMultiplier (some ⟨some 1, some 1⟩) ≠ 2 ∧
    calculate_risk_score 1 0 0 (some ⟨some 1, some 1⟩) = 30 ∧
    calculate_risk_score 1 0 0 (some ⟨none, some 1⟩) = 20 := by
  refine ⟨?_, ?_, ?_, ?_⟩ <;>
    norm_num [calculate_risk_score, severityMultiplier, wPos, min_def]

/-- C1, amended: the severity multiplier applied by
`calculate_risk_score` is `1.5` when only the `high` flag is present,
`2.0` when only the `critical` flag is present, and the product `3.0`
(never `2.0` alone) when both are present. -/
theorem C1_multiplier_cases (w : Option SeverityWeights) :
    severityMultiplier w =
      if hasHighFlag w && hasCriticalFlag w then (3 : ℚ)
      else if hasCriticalFlag w then 2
      else if hasHighFlag w then 3 / 2
      else 1 := by
  rw [severityMultiplier_factorization]
  cases hH : hasHighFlag w <;> cases hC : hasCriticalFlag w <;>
    norm_num [hH, hC]

/-- C2: the running total of `calculate_risk_score` is
`min(attackCount*10, 50)` plus `uniqueEndpoints*2`, multiplied by `1.2`
exactly when the session duration exceeds 3600 seconds, and the severity
multiplier is applied only after that. -/
theorem C2_base_formula (a e : ℤ) (d : ℚ) (w : Option SeverityWeights) :
    calculate_risk_score a e d w =
      min (riskScoreBase_spec a e d * severityMultiplier w) 100 := by
  simp only [calculate_risk_score, riskScoreBase_spec, gt_iff_lt]

/-- C3, counterexample: the score is not clipped below at `0` — with the
(SQL-`INTEGER`-typed) attack count `-1`, no endpoints, no session and no
severity weights, the score is `-10 < 0`. -/
theorem C3_counterexample :
    calculate_risk_score (-1) 0 0 none = -10 ∧
    ¬ (0 ≤ calculate_risk_score (-1) 0 0 none) := by
  constructor <;> norm_num [calculate_risk_score, severityMultiplier, min_def]

/-- C3, amended: the score never exceeds `100` for any input, and for
nonnegative attack and endpoint counts (the only values the aggregation
pipeline produces) it also never drops below `0`, so it lies in
`[0, 100]`. -/
theorem C3_bounds (a e : ℤ) (d : ℚ) (w : Option SeverityWeights) :
    calculate_risk_score a e d w ≤ 100 ∧
      (0 ≤ a → 0 ≤ e → 0 ≤ calculate_risk_score a e d w) := by
  constructor
  · exact min_le_right _ _
  · intro ha he
    have ha1 : (0 : ℚ) ≤ (a : ℚ) := by exact_mod_cast ha
    have he1 : (0 : ℚ) ≤ (e : ℚ) := by exact_mod_cast he
    simp only [calculate_risk_score]
    have hb0 : (0 : ℚ) ≤ min ((a : ℚ) * 10) 50 :=
      le_min (mul_nonneg ha1 (by norm_num)) (by norm_num)
    have hb1 : (0 : ℚ) ≤ min ((a : ℚ) * 10) 50 + (e : ℚ) * 2 :=
      add_nonneg hb0 (mul_nonneg he1 (by norm_num))
    have hb2 : (0 : ℚ) ≤
        (if d > 3600 then (min ((a : ℚ) * 10) 50 + (e : ℚ) * 2) * (6 / 5)
         else min ((a : ℚ) * 10) 50 + (e : ℚ) * 2) := by
      split
      · exact mul_nonneg hb1 (by norm_num)
      · exact hb1
    have hm : (0 : ℚ) ≤ severityMultiplier w :=
      le_trans zero_le_one (one_le_severityMultiplier w)
    exact le_min (mul_nonneg hb2 hm) (by norm_num)

/-- C3 witness: at attack count 3, endpoints 2, no session, no weights,
the score is within `[0, 100]`. -/
theorem C3_bounds_witness :
    (0 : ℤ) ≤ 3 ∧ (0 : ℤ) ≤ 2 ∧
    calculate_risk_score 3 2 0 none ≤ 100 ∧
    0 ≤ calculate_risk_score 3 2 0 none :=
  ⟨by norm_num, by norm_num, (C3_bounds 3 2 0 none).1,
    (C3_bounds 3 2 0 none).2 (by norm_num) (by norm_num)⟩

/-- C4, counterexample: monotonicity in severity fails for a negative
(SQL-`INTEGER`-typed) attack count — adding the `critical` flag to an
otherwise identical input strictly lowers the score from `-10` to `-20`,
because the unclipped negative base is scaled by the multiplier. -/
theorem C4_counterexample :
    hasHighFlag (none : Option SeverityWeights) = false ∧
    hasCriticalFlag (none : Option SeverityWeights) = false ∧
    hasCriticalFlag (some ⟨none, some 1⟩) = true ∧
    calculate_risk_score (-1) 0 0 (some ⟨none, some 1⟩) <
      calculate_risk_score (-1) 0 0 none := by
  refine ⟨rfl, rfl, by norm_num [hasCriticalFlag, wPos], ?_⟩
  norm_num [calculate_risk_score, severityMultiplier, wPos, min_def]

/-- C4, amended: for nonnegative counts the score is monotone
non-decreasing jointly (hence separately) in attack count, unique
endpoints, and the set of severity flags present, holding the session
duration fixed. -/
theorem C4_monotone (a₁ a₂ e₁ e₂ : ℤ) (d : ℚ)
    (w₁ w₂ : Option SeverityWeights)
    (ha0 : 0 ≤ a₁) (he0 : 0 ≤ e₁) (ha : a₁ ≤ a₂) (he : e₁ ≤ e₂)
    (hh : hasHighFlag w₁ = true → hasHighFlag w₂ = true)
    (hc : hasCriticalFlag w₁ = true → hasCriticalFlag w₂ = true) :
    calculate_risk_score a₁ e₁ d w₁ ≤ calculate_risk_score a₂ e₂ d w₂ := by
  have ha1 : (0 : ℚ) ≤ (a₁ : ℚ) := by exact_mod_cast ha0
  have he1 : (0 : ℚ) ≤ (e₁ : ℚ) := by exact_mod_cast he0
  have haQ : (a₁ : ℚ) ≤ (a₂ : ℚ) := by exact_mod_cast ha
  have heQ : (e₁ : ℚ) ≤ (e₂ : ℚ) := by exact_mod_cast he
  simp only [calculate_risk_score]
  have h0 : min ((a₁ : ℚ) * 10) 50 ≤ min ((a₂ : ℚ) * 10) 50 :=
    min_le_min (mul_le_mul_of_nonneg_right haQ (by norm_num)) le_rfl
  have h0n : (0 : ℚ) ≤ min ((a₁ : ℚ) * 10) 50 :=
    le_min (mul_nonneg ha1 (by norm_num)) (by norm_num)
  have h1 : min ((a₁ : ℚ) * 10) 50 + (e₁ : ℚ) * 2 ≤
      min ((a₂ : ℚ) * 10) 50 + (e₂ : ℚ) * 2 :=
    add_le_add h0 (mul_le_mul_of_nonneg_right heQ (by norm_num))
  have h1n : (0 : ℚ) ≤ min ((a₁ : ℚ) * 10) 50 + (e₁ : ℚ) * 2 :=
    add_nonneg h0n (mul_nonneg he1 (by norm_num))
  have h2 : (if d > 3600 then (min ((a₁ : ℚ) * 10) 50 + (e₁ : ℚ) * 2) * (6 / 5)
        else min ((a₁ : ℚ) * 10) 50 + (e₁ : ℚ) * 2) ≤
      (if d > 3600 then (min ((a₂ : ℚ) * 10) 50 + (e₂ : ℚ) * 2) * (6 / 5)
        else min ((a₂ : ℚ) * 10) 50 + (e₂ : ℚ) * 2) := by
    split
    · exact mul_le_mul_of_nonneg_right h1 (by norm_num)
    · exact h1
  have h2n : (0 : ℚ) ≤
      (if d > 3600 then (min ((a₁ : ℚ) * 10) 50 + (e₁ : ℚ) * 2) * (6 / 5)
        else min ((a₁ : ℚ) * 10) 50 + (e₁ : ℚ) * 2) := by
    split
    · exact mul_nonneg h1n (by norm_num)
    · exact h1n
  have hm1 : (0 : ℚ) ≤ severityMultiplier w₁ :=
    le_trans zero_le_one (one_le_severityMultiplier w₁)
  have hmono := severityMultiplier_mono w₁ w₂ hh hc
  exact min_le_min
    (mul_le_mul h2 hmono hm1 (le_trans h2n h2)) le_rfl

/-- C4 witness: from attack count 1 and no weights to attack count 2, one
endpoint and a `high` weight, the score does not decrease. -/
theorem C4_monotone_witness :
    (0 : ℤ) ≤ 1 ∧ (1 : ℤ) ≤ 2 ∧ (0 : ℤ) ≤ 0 ∧ (0 : ℤ) ≤ 1 ∧
    calculate_risk_score 1 0 0 none ≤
      calculate_risk_score 2 1 0 (some ⟨some 1, none⟩) :=
  ⟨by norm_num, by norm_num, le_rfl, by norm_num,
    C4_monotone 1 2 0 1 0 none (some ⟨some 1, none⟩)
      (by norm_num) le_rfl (by norm_num) (by norm_num)
      (by simp [hasHighFlag, wPos]) (by simp [hasCriticalFlag, wPos])⟩

/-! ## Claims about the severity order and `MAX(severity)` -/

/-- Fold characterization of the severity maximum: the result is the
highest enum value present in the list, `low` for the empty list. -/
lemma maxSeverity_characterization (l : List Severity) :
    maxSeverity l =
      if Severity.critical ∈ l then Severity.critical
      else if Severity.high ∈ l then Severity.high
      else if Severity.medium ∈ l then Severity.medium
      else Severity.low := by
  induction l with
  | nil => rfl
  | cons s t ih =>
    have hstep : maxSeverity (s :: t) = sevMax s (maxSeverity t) := rfl
    rw [hstep, ih]
    by_cases hc : Severity.critical ∈ t <;>
      by_cases hh : Severity.high ∈ t <;>
      by_cases hm : Severity.medium ∈ t <;>
      cases s <;>
      simp [sevMax, sevOrd, List.mem_cons, hc, hh, hm]

/-- C5: the severity enum is ordered `low < medium < high < critical`,
and on a non-empty group of events `MAX(severity)` is `critical` if any
event is critical, else `high` if any is high, else `medium` if any is
medium, else `low`. -/
theorem C5_max_severity (l : List Severity) (_h : l ≠ []) :
    (sevOrd .low < sevOrd .medium ∧ sevOrd .medium < sevOrd .high ∧
      sevOrd .high < sevOrd .critical) ∧
    maxSeverity l =
      (if Severity.critical ∈ l then Severity.critical
       else if Severity.high ∈ l then Severity.high
       else if Severity.medium ∈ l then Severity.medium
       else Severity.low) :=
  ⟨by norm_num [sevOrd], maxSeverity_characterization l⟩

/-- C5 witness: on the group `[low, high]` the maximum severity is
`high`. -/
theorem C5_max_severity_witness :
    ([Severity.low, Severity.high] ≠ ([] : List Severity)) ∧
    maxSeverity [Severity.low, Severity.high] = Severity.high :=
  ⟨by decide,
    ((C5_max_severity [Severity.low, Severity.high] (by decide)).2).trans
      (by decide)⟩

/-! ## Claims about alert status transitions -/

/-- Along any allowed run, the status rank never decreases. -/
lemma runTransitions_rank (l : List AlertStatus) (s s2 : AlertStatus)
    (h : runTransitions s l = some s2) : statusRank s ≤ statusRank s2 := by
  induction l generalizing s with
  | nil =>
    simp only [runTransitions, Option.some.injEq] at h
    rw [h]
  | cons t rest ih =>
    simp only [runTransitions] at h
    by_cases ht : allowedTransition s t = true
    · rw [if_pos ht] at h
      have hstep : ∀ x y, allowedTransition x y = true → statusRank x < statusRank y := by
        decide
      exact le_trans (le_of_lt (hstep s t ht)) (ih t h)
    · rw [if_neg ht] at h
      exact absurd h (by simp)

/-- A status with no allowed outgoing transition never changes. -/
lemma runTransitions_terminal (s : AlertStatus)
    (hterm : ∀ t, allowedTransition s t = false)
    (l : List AlertStatus) (s2 : AlertStatus)
    (h : runTransitions s l = some s2) : s2 = s := by
  cases l with
  | nil =>
    simp only [runTransitions, Option.some.injEq] at h
    exact h.symm
  | cons t rest =>
    simp only [runTransitions] at h
    rw [hterm t] at h
    exact absurd h (by simp)

/-- C6: the only allowed transitions are `open → investigating` and
`investigating → {resolved, false_positive}` — every allowed step
strictly increases the status rank — and no sequence of allowed
transitions ever brings `investigating` back to `open` or moves
`resolved` / `false_positive` anywhere at all. -/
theorem C6_status_transitions :
    (∀ s t, allowedTransition s t = true →
      (s = .open_ ∧ t = .investigating) ∨
      (s = .investigating ∧ (t = .resolved ∨ t = .false_positive))) ∧
    (∀ s t, allowedTransition s t = true → statusRank s < statusRank t) ∧
    (∀ l s, runTransitions .investigating l = some s → s ≠ .open_) ∧
    (∀ l s, runTransitions .resolved l = some s → s = .resolved) ∧
    (∀ l s, runTransitions .false_positive l = some s → s = .false_positive) := by
  refine ⟨by decide, by decide, ?_, ?_, ?_⟩
  · intro l s h hs
    have hrank := runTransitions_rank l .investigating s h
    rw [hs] at hrank
    exact absurd hrank (by decide)
  · exact fun l s h => runTransitions_terminal .resolved (by decide) l s h
  · exact fun l s h => runTransitions_terminal .false_positive (by decide) l s h

/-- C6 witness: `investigating → resolved` is an allowed run and its
endpoint is not `open`. -/
theorem C6_status_transitions_witness :
    runTransitions .investigating [AlertStatus.resolved] =
      some AlertStatus.resolved ∧
    AlertStatus.resolved ≠ AlertStatus.open_ :=
  ⟨by decide,
    C6_status_transitions.2.2.1 [AlertStatus.resolved] AlertStatus.resolved
      (by decide)⟩

/-! ## Claims about alert creation and deduplication -/

/-- Once an `open` alert for key `k` exists, a further event for `k`
inside the dedup window leaves the engine state unchanged. -/
lemma processEvent_stable (threshold window t0 : ℚ) (k : AlertKey)
    (e : EngineEvent) (hk : e.key = k) (hle : e.time - t0 ≤ window) :
    processEvent threshold window [⟨k, t0, .open_⟩] e = [⟨k, t0, .open_⟩] := by
  have hact : hasActiveAlert [⟨k, t0, AlertStatus.open_⟩] e.key e.time window
      = true := by
    simp only [hasActiveAlert, List.any_cons, List.any_nil, Bool.or_false,
      Bool.and_eq_true, decide_eq_true_eq]
    exact ⟨⟨hk.symm, rfl⟩, hle⟩
  simp [processEvent, hact]

/-- A run of events all for key `k` and all inside the window of `t0`
leaves the single-open-alert state unchanged. -/
lemma runEngine_stable (threshold window t0 : ℚ) (k : AlertKey)
    (events : List EngineEvent)
    (h : ∀ e ∈ events, e.key = k ∧ e.time - t0 ≤ window) :
    runAlertEngine threshold window [⟨k, t0, .open_⟩] events
      = [⟨k, t0, .open_⟩] := by
  induction events with
  | nil => rfl
  | cons e rest ih =>
    have he := h e (List.mem_cons_self e rest)
    have hstep : runAlertEngine threshold window [⟨k, t0, .open_⟩] (e :: rest)
        = runAlertEngine threshold window
            (processEvent threshold window [⟨k, t0, .open_⟩] e) rest := rfl
    rw [hstep, processEvent_stable threshold window t0 k e he.1 he.2]
    exact ih fun x hx => h x (List.mem_cons_of_mem e hx)

/-- C7: starting from an empty engine state, a non-empty burst of
critical-severity events that all share one dedup key and all arrive
within the dedup window of the first event produces exactly one alert —
a single `open` alert for that key, created at the first event's time. -/
theorem C7_alert_dedup (threshold window : ℚ) (k : AlertKey)
    (e0 : EngineEvent) (rest : List EngineEvent)
    (hk0 : e0.key = k) (hs0 : e0.severity = Severity.critical)
    (hrest : ∀ e ∈ rest, e.key = k ∧ e.severity = Severity.critical ∧
      e.time - e0.time ≤ window) :
    runAlertEngine threshold window [] (e0 :: rest)
      = [⟨k, e0.time, .open_⟩] := by
  have h1 : processEvent threshold window [] e0 = [⟨k, e0.time, .open_⟩] := by
    simp [processEvent, triggersAlert, hs0, hasActiveAlert, hk0]
  have hstep : runAlertEngine threshold window [] (e0 :: rest)
      = runAlertEngine threshold window
          (processEvent threshold window [] e0) rest := rfl
  rw [hstep, h1]
  exact runEngine_stable threshold window e0.time k rest
    fun e he => ⟨(hrest e he).1, (hrest e he).2.2⟩

/-- C7 witness: ten critical events from one source within a 900-second
window yield exactly one `open` alert. -/
theorem C7_alert_dedup_witness :
    (⟨⟨"198.51.100.7", "critical_event"⟩, 0, Severity.critical, 0⟩
        : EngineEvent).severity = Severity.critical ∧
    runAlertEngine 70 900 []
      [⟨⟨"198.51.100.7", "critical_event"⟩, 0, Severity.critical, 0⟩,
       ⟨⟨"198.51.100.7", "critical_event"⟩, 1, Severity.critical, 0⟩,
       ⟨⟨"198.51.100.7", "critical_event"⟩, 2, Severity.critical, 0⟩,
       ⟨⟨"198.51.100.7", "critical_event"⟩, 3, Severity.critical, 0⟩,
       ⟨⟨"198.51.100.7", "critical_event"⟩, 4, Severity.critical, 0⟩,
       ⟨⟨"198.51.100.7", "critical_event"⟩, 5, Severity.critical, 0⟩,
       ⟨⟨"198.51.100.7", "critical_event"⟩, 6, Severity.critical, 0⟩,
       ⟨⟨"198.51.100.7", "critical_event"⟩, 7, Severity.critical, 0⟩,
       ⟨⟨"198.51.100.7", "critical_event"⟩, 8, Severity.critical, 0⟩,
       ⟨⟨"198.51.100.7", "critical_event"⟩, 9, Severity.critical, 0⟩]
      = [⟨⟨"198.51.100.7", "critical_event"⟩, 0, .open_⟩] :=
  ⟨rfl,
    C7_alert_dedup 70 900 ⟨"198.51.100.7", "critical_event"⟩
      ⟨⟨"198.51.100.7", "critical_event"⟩, 0, Severity.critical, 0⟩ _
      rfl rfl
      (by intro e he; fin_cases he <;> exact ⟨rfl, rfl, by norm_num⟩)⟩

/-! ## Claims about the normalizer -/

/-- The generated request identifier is never empty: it starts with the
literal prefix `req_`. -/
lemma generate_request_id_length (s t : String) :
    0 < (generate_request_id s t).length := by
  have h4 : ("req_" : String).length = 4 := rfl
  have h1 : ("_" : String).length = 1 := rfl
  simp only [generate_request_id, String.length_append, h4, h1]
  omega

/-- C8: on every valid capture the normalizer succeeds (it never
rejects), and the produced event carries a non-empty, freshly generated
identifier and header/body snapshots truncated to the fixed cap. -/
theorem C8_normalize_total (epoch_text rand_hash : String) (c : RawCapture)
    (h : validCapture c = true) :
    ∃ ev, normalize epoch_text rand_hash c = Except.ok ev ∧
      ev.event_id = generate_request_id epoch_text rand_hash ∧
      0 < ev.event_id.length ∧
      ev.headers_snapshot.length ≤ SNAPSHOT_CAP ∧
      ev.body_snapshot.length ≤ SNAPSHOT_CAP := by
  have hnorm : normalize epoch_text rand_hash c = Except.ok
      { event_id := generate_request_id epoch_text rand_hash
        method := c.method
        path := c.path
        headers_snapshot := c.headers.take SNAPSHOT_CAP
        body_snapshot := c.body.take SNAPSHOT_CAP
        truncated := decide (SNAPSHOT_CAP < c.headers.length) ||
          decide (SNAPSHOT_CAP < c.body.length)
        source_identity := c.remote_addr
        timestamp := c.timestamp } := by
    unfold normalize
    rw [if_pos h]
  refine ⟨_, hnorm, rfl, generate_request_id_length _ _, ?_, ?_⟩
  · rw [List.length_take]
    exact min_le_left _ _
  · rw [List.length_take]
    exact min_le_left _ _

/-- C8 witness: a concrete valid capture is normalized successfully. -/
theorem C8_normalize_total_witness :
    validCapture ⟨"GET", "/api/login", [10, 20], [30], "10.0.0.1", 0⟩ = true ∧
    ∃ ev, normalize "1700000000" "abcdef1234"
        ⟨"GET", "/api/login", [10, 20], [30], "10.0.0.1", 0⟩ = Except.ok ev ∧
      ev.event_id = generate_request_id "1700000000" "abcdef1234" ∧
      0 < ev.event_id.length ∧
      ev.headers_snapshot.length ≤ SNAPSHOT_CAP ∧
      ev.body_snapshot.length ≤ SNAPSHOT_CAP :=
  ⟨rfl, C8_normalize_total "1700000000" "abcdef1234"
    ⟨"GET", "/api/login", [10, 20], [30], "10.0.0.1", 0⟩ rfl⟩

/-! ## Claims about the `update_last_seen` trigger -/

/-- The trajectory of `last_seen` values is the initial value followed by
the successive clock readings: each firing of the trigger overwrites
`last_seen` with `NOW()`. -/
lemma lastSeenTrajectory_eq (p : AttackerProfile) (times : List ℚ) :
    lastSeenTrajectory p times = p.last_seen :: times := by
  induction times generalizing p with
  | nil => rfl
  | cons t rest ih =>
    show p.last_seen :: lastSeenTrajectory (update_last_seen t p) rest
      = p.last_seen :: t :: rest
    rw [ih]
    rfl

/-- C9: along any sequence of `update_last_seen` firings whose clock
readings do not decrease (and start no earlier than the profile's current
`last_seen`), the profile's `last_seen` is monotonically non-decreasing —
each update leaves it at or above its previous value. -/
theorem C9_last_seen_monotone (p : AttackerProfile) (times : List ℚ)
    (h : List.Chain' (· ≤ ·) (p.last_seen :: times)) :
    List.Chain' (· ≤ ·) (lastSeenTrajectory p times) := by
  rw [lastSeenTrajectory_eq]
  exact h

/-- C9 witness: two updates at times 1 and 2 on a profile last seen at
time 0 give the non-decreasing trajectory `[0, 1, 2]`. -/
theorem C9_last_seen_monotone_witness :
    List.Chain' (· ≤ ·) [(0 : ℚ), 1, 2] ∧
    List.Chain' (· ≤ ·)
      (lastSeenTrajectory ⟨"10.0.0.1", 0, 0, 0⟩ [1, 2]) := by
  have hch : List.Chain' (· ≤ ·) [(0 : ℚ), 1, 2] := by
    simp only [List.chain'_cons, List.chain'_singleton, and_true]
    norm_num
  exact ⟨hch, C9_last_seen_monotone ⟨"10.0.0.1", 0, 0, 0⟩ [1, 2] hch⟩

/-! ## Claims about the `real_time_alerts` view -/

/-- C10: every row of the `real_time_alerts` view has status `open` or
`investigating`; `resolved` and `false_positive` alerts never appear. -/
theorem C10_view_active_only (sas : List SecurityAlertRow)
    (aes : List AttackEventRow) (r : RealTimeAlertRow)
    (hr : r ∈ real_time_alerts sas aes) :
    r.status = AlertStatus.open_ ∨ r.status = AlertStatus.investigating := by
  simp only [real_time_alerts, List.mem_flatMap] at hr
  obtain ⟨sa, hsa, hrow⟩ := hr
  have hact : isActiveStatus sa.status = true := (List.mem_filter.mp hsa).2
  have hstat : r.status = sa.status := by
    simp only [leftJoinEvents] at hrow
    split at hrow
    · rw [List.mem_singleton] at hrow
      rw [hrow]
      rfl
    · obtain ⟨ae, _, hae⟩ := List.mem_map.mp hrow
      rw [← hae]
      rfl
  rw [hstat]
  cases hss : sa.status <;> simp_all [isActiveStatus]

/-- C10 witness: a single `open` alert appears in the view and its
status is `open` or `investigating`. -/
theorem C10_view_active_only_witness :
    (alertRow ⟨1, "a1", 0, "sq", Severity.high, "t", "d", "ip", "/x", 1,
        AlertStatus.open_, []⟩ none).status = AlertStatus.open_ ∨
    (alertRow ⟨1, "a1", 0, "sq", Severity.high, "t", "d", "ip", "/x", 1,
        AlertStatus.open_, []⟩ none).status = AlertStatus.investigating :=
  C10_view_active_only
    [⟨1, "a1", 0, "sq", Severity.high, "t", "d", "ip", "/x", 1,
        AlertStatus.open_, []⟩] []
    (alertRow ⟨1, "a1", 0, "sq", Severity.high, "t", "d", "ip", "/x", 1,
        AlertStatus.open_, []⟩ none)
    (List.mem_singleton.mpr rfl)

end Honeypot
